import Mathlib

/-!
Shallow embedding of the follow-up lifecycle engine and email send path of
the job-application tracker (module `src/email_engine.py`, data model in
`src/model.py`).  Machine state is passed explicitly: the SQLAlchemy session
becomes an `EngineState` record, each engine method becomes a function from
state to state.  Timestamps and dates are modelled as `Int` values passed in
explicitly for each clock read; SMTP transmission outcomes are supplied by an
oracle `Nat → Option String` giving, per attempt index, either a failure
message or success.
-/

namespace JobOutreach

/-- Equality on `Except` values is decidable when it is on both components. -/
instance {ε α : Type} [DecidableEq ε] [DecidableEq α] : DecidableEq (Except ε α) :=
  fun a b =>
    match a, b with
    | .ok x, .ok y =>
      if h : x = y then .isTrue (by rw [h]) else .isFalse (by simp [h])
    | .error x, .error y =>
      if h : x = y then .isTrue (by rw [h]) else .isFalse (by simp [h])
    | .ok _, .error _ => .isFalse (by simp)
    | .error _, .ok _ => .isFalse (by simp)

/-! ## Python string primitives -/

/-- Truthiness of an optional string, as Python evaluates `x` in a boolean
context: `None` and the empty string are falsy. -/
def optTruthy : Option String → Bool
  | none => false
  | some s => !(s == "")

/-- Python `x or d` for an optional string `x`: the fallback `d` is used when
`x` is `None` or empty. -/
def pyOr (x : Option String) (d : String) : String :=
  match x with
  | none => d
  | some s => if s == "" then d else s

/-- Python f-string rendering of an optional string: `None` prints as the
literal text `None`. -/
def pyShowOpt : Option String → String
  | none => "None"
  | some s => s

/-- The characters Python `str.split()` (no separator) treats as whitespace. -/
def pyIsSpace (c : Char) : Bool :=
  c == ' ' || c == '\t' || c == '\n' || c == '\r' || c == '\x0b' || c == '\x0c'

/-- First whitespace-delimited token of a string, i.e. Python
`s.split()[0]`; `none` models the `IndexError` raised when the split list is
empty (the string has no non-whitespace character). -/
def pyFirstToken : List Char → Option (List Char)
  | [] => none
  | c :: rest =>
    if pyIsSpace c then pyFirstToken rest
    else some (c :: rest.takeWhile (fun d => !pyIsSpace d))

/-- Does `pat` occur as a contiguous substring? -/
def containsSub (pat : List Char) : List Char → Bool
  | [] => pat.isEmpty
  | c :: rest => pat.isPrefixOf (c :: rest) || containsSub pat rest

/-- Replace every non-overlapping occurrence of `pat` by `repl`, scanning left
to right, exactly as Python `str.replace`.  The fuel argument is instantiated
with the length of the subject string, which each step strictly decreases, so
the fuel never runs out on the intended calls; all placeholder patterns of the
source are non-empty so the empty-pattern corner of Python `replace` is not
exercised. -/
def replaceAllFuel (pat repl : List Char) : Nat → List Char → List Char
  | 0, s => s
  | _, [] => []
  | fuel + 1, c :: rest =>
    if pat.isPrefixOf (c :: rest) && !pat.isEmpty then
      repl ++ replaceAllFuel pat repl fuel (rest.drop (pat.length - 1))
    else
      c :: replaceAllFuel pat repl fuel rest

/-- Python `s.replace(pat, repl)`. -/
def pyReplace (s pat repl : String) : String :=
  ⟨replaceAllFuel pat.data repl.data s.data.length s.data⟩

/-! ## Data model (`src/model.py`) -/

/-- `Job` row (the fields the email engine reads). -/
structure Job where
  id : Nat
  company_name : String
  job_title : String
deriving DecidableEq, Repr

/-- `Contact` row.  Note that `src/model.py` declares no `notes` column on
`contacts`; only `jobs` has one, so this structure has no notes field. -/
structure Contact where
  id : Nat
  name : Option String
  email : String
  company_name : Option String
  contact_type : Option String
  phone : Option String
  linkedin_url : Option String
  last_contacted : Option Int
  needs_followup : Bool
  followup_date : Option Int
  replied : Bool
  reply_date : Option Int
deriving DecidableEq, Repr

/-- `EmailTemplate` row. -/
structure EmailTemplate where
  id : Nat
  name : String
  subject : String
  body : String
  is_followup : Bool
  days_after_previous : Nat
deriving DecidableEq, Repr

/-- `EmailLog` row as written by the engine. -/
structure EmailLog where
  contact_id : Nat
  template_id : Option Nat
  job_id : Option Nat
  subject : String
  body : String
  status : String
  error_message : Option String
  smtp_response : Option String
deriving DecidableEq, Repr

/-- `EmailAccount` row (only the field the send path reads). -/
structure EmailAccount where
  email_address : String
deriving DecidableEq, Repr

/-- Modelled from the spec: `create_followup_event` is imported from
`src/calendar_integration.py`, a module absent from the sources; the spec
describes the artifact as a summary (contact name plus company) together with
a due date `days_until` days from generation time. -/
structure CalendarEvent where
  contact_name : Option String
  company_name : Option String
  days_until : Int
deriving DecidableEq, Repr

/-- The engine plus session state: the contact and template tables, the email
log, and the SMTP connection fields of `EmailEngine`. -/
structure EngineState where
  contacts : List Contact
  templates : List EmailTemplate
  logs : List EmailLog
  smtp_connected : Bool
  current_account : Option EmailAccount
deriving DecidableEq, Repr

/-- State of `EmailEngine.__init__`: no SMTP connection, no current account,
empty log. -/
def initialEngineState (contacts : List Contact) (templates : List EmailTemplate) :
    EngineState :=
  { contacts := contacts, templates := templates, logs := [],
    smtp_connected := false, current_account := none }

/-! ## `EmailEngine.format_template` -/

/-- The value bound to the first-name placeholder: Python evaluates
`contact.name.split()[0] if contact.name else "there"`, so a truthy name with
no non-whitespace character raises `IndexError`, modelled as `none`. -/
def firstNameEntry (name : Option String) : Option String :=
  if optTruthy name then
    (pyFirstToken ((name.getD "").data)).map (fun l => ⟨l⟩)
  else some "there"

/-- The base context dictionary of `format_template`, as an insertion-ordered
association list.  `todayStr` stands for the formatted current date. -/
def baseContext (contact : Contact) (job : Option Job) (fn your_name todayStr : String) :
    List (String × String) :=
  [("\x7bname\x7d", pyOr contact.name "Hiring Team"),
   ("\x7bcompany\x7d", pyOr contact.company_name
      (match job with | some j => j.company_name | none => "")),
   ("\x7bjob_title\x7d", match job with | some j => j.job_title | none => ""),
   ("\x7bfirst_name\x7d", fn),
   ("\x7byour_name\x7d", your_name),
   ("\x7btoday\x7d", todayStr),
   ("\x7bcontact_role\x7d", pyOr contact.contact_type "hiring manager"),
   ("\x7bphone\x7d", pyOr contact.phone "[phone not available]"),
   ("\x7blinkedin\x7d", pyOr contact.linkedin_url "[LinkedIn not provided]")]

/-- Python `dict.update`: an existing key keeps its position and gets the new
value, a fresh key is appended. -/
def dictUpdate (base upd : List (String × String)) : List (String × String) :=
  upd.foldl (fun acc kv =>
    if acc.any (fun q => q.1 == kv.1) then
      acc.map (fun q => if q.1 == kv.1 then (q.1, kv.2) else q)
    else acc ++ [kv]) base

/-- The replacement loop of `format_template`: one `str.replace` per context
entry, in insertion order. -/
def applyContext (ctx : List (String × String)) (s : String) : String :=
  ctx.foldl (fun acc kv => pyReplace acc kv.1 kv.2) s

/-- `EmailEngine.format_template`; `none` models the `IndexError` escaping
from the first-name entry. -/
def format_template (template : EmailTemplate) (contact : Contact) (job : Option Job)
    (your_name todayStr : String) (pctx : List (String × String)) :
    Option (String × String) :=
  match firstNameEntry contact.name with
  | none => none
  | some fn =>
    let ctx := dictUpdate (baseContext contact job fn your_name todayStr) pctx
    some (applyContext ctx template.subject, applyContext ctx template.body)

/-! ## `EmailEngine._send_email_internal` -/

/-- Outcome triple of a send call: success flag, message, optional calendar
event. -/
structure SendOutcome where
  success : Bool
  message : String
  event : Option CalendarEvent
deriving DecidableEq, Repr

/-- All per-call inputs of `_send_email_internal` apart from the retry budget:
the contact and template objects, the optional job, the sender display name,
the formatted current date, the personalization context, the clock readings
(`now` for timestamps, `today` for dates), and the transmission oracle giving
each attempt index either a failure message or success. -/
structure SendCtx where
  oracle : Nat → Option String
  contact : Contact
  template : EmailTemplate
  job : Option Job
  your_name : String
  todayStr : String
  pctx : List (String × String)
  now : Int
  today : Int

/-- One attempt of the retry loop up to the `send_message` call: template
formatting (which can raise), the dereference of `current_account` while
building the From header, the explicit connection check, then transmission
per the oracle.  An `error` value is the message of the exception caught by
the `except` branch. -/
def attemptStep (st : EngineState) (p : SendCtx) (i : Nat) :
    Except String (String × String) :=
  match format_template p.template p.contact p.job p.your_name p.todayStr p.pctx with
  | none => .error "IndexError: list index out of range"
  | some sb =>
    match st.current_account with
    | none => .error "AttributeError: NoneType has no attribute email_address"
    | some _ =>
      if !st.smtp_connected then
        .error "SMTP connection not established. Call connect_smtp first."
      else
        match p.oracle i with
        | some e => .error e
        | none => .ok sb

/-- Is the attempt outcome an error? -/
def isErr (x : Except String (String × String)) : Bool :=
  match x with
  | .error _ => true
  | .ok _ => false

/-- The contact mutation of the success path: set `last_contacted`, clear
`needs_followup` and `replied`, then, only when the template is a follow-up
type AND `days_after_previous` is truthy (non-zero), schedule the follow-up
date and set `needs_followup` back to true. -/
def applySendUpdate (c : Contact) (t : EmailTemplate) (now today : Int) : Contact :=
  if t.is_followup && (t.days_after_previous != 0) then
    { c with last_contacted := some now, replied := false,
             followup_date := some (today + (t.days_after_previous : Int)),
             needs_followup := true }
  else
    { c with last_contacted := some now, needs_followup := false, replied := false }

/-- The `EmailLog` row written on a successful send. -/
def mkSentLog (p : SendCtx) (subj bod : String) : EmailLog :=
  { contact_id := p.contact.id, template_id := some p.template.id,
    job_id := p.job.map Job.id, subject := subj, body := bod,
    status := "sent", error_message := none, smtp_response := some "250 OK" }

/-- The failure message returned and logged after the retry budget is spent. -/
def failMsg (max_retries : Nat) (e : String) : String :=
  "Failed after " ++ toString max_retries ++ " attempts: " ++ e

/-- The `EmailLog` row written after all attempts failed.  The source falls
back to the raw template subject and body when the local variables were never
bound, i.e. exactly when formatting raised on every attempt; formatting is
deterministic across attempts, so this is the formatting result when it
exists. -/
def mkFailedLog (p : SendCtx) (max_retries : Nat) (e : String) : EmailLog :=
  { contact_id := p.contact.id, template_id := some p.template.id,
    job_id := p.job.map Job.id,
    subject := (match format_template p.template p.contact p.job p.your_name
        p.todayStr p.pctx with
      | some sb => sb.1
      | none => p.template.subject),
    body := (match format_template p.template p.contact p.job p.your_name
        p.todayStr p.pctx with
      | some sb => sb.2
      | none => p.template.body),
    status := "failed", error_message := some (failMsg max_retries e),
    smtp_response := none }

/-- The advisory calendar event of the success path. -/
def mkEvent (p : SendCtx) : Option CalendarEvent :=
  if p.template.is_followup || decide (p.template.days_after_previous > 0) then
    some { contact_name := p.contact.name, company_name := p.contact.company_name,
           days_until := if p.template.is_followup
             then (p.template.days_after_previous : Int) else 7 }
  else none

/-- The committed state after a successful send: one new sent log row, and the
stored contact with the id of the argument updated per `applySendUpdate`. -/
def commitSent (st : EngineState) (p : SendCtx) (subj bod : String) : EngineState :=
  { st with logs := st.logs ++ [mkSentLog p subj bod],
            contacts := (st.contacts.map (fun c =>
              if c.id == p.contact.id then applySendUpdate c p.template p.now p.today
              else c)) }

/-- The retry loop of `_send_email_internal`: the first argument is the number
of attempts still allowed (initially `max_retries`), the second the zero-based
index of the next attempt, the third the last error seen.  With no attempts
left the source falls through to the unexpected-error return. -/
def sendAttempts (p : SendCtx) (max_retries : Nat) (st : EngineState) :
    Nat → Nat → Option String → SendOutcome × EngineState
  | 0, _, last_error =>
    ({ success := false, message := "Unexpected error: " ++ pyShowOpt last_error,
       event := none }, st)
  | r + 1, i, _ =>
    match attemptStep st p i with
    | .ok sb =>
      ({ success := true, message := "Email sent successfully!", event := mkEvent p },
       commitSent st p sb.1 sb.2)
    | .error e =>
      if r == 0 then
        ({ success := false, message := failMsg max_retries e, event := none },
         { st with logs := st.logs ++ [mkFailedLog p max_retries e] })
      else
        sendAttempts p max_retries st r (i + 1) (some e)

/-- `EmailEngine._send_email_internal` (the shared body of `send_email` and
`send_personalized_email`). -/
def send_email_internal (p : SendCtx) (max_retries : Nat) (st : EngineState) :
    SendOutcome × EngineState :=
  sendAttempts p max_retries st max_retries 0 none

/-! ## `EmailEngine.get_followup_candidates` -/

/-- The filter of the candidates query: `last_contacted` non-null and at or
before `now - days_threshold`, not already flagged, not replied. -/
def isFollowupCandidate (now days_threshold : Int) (c : Contact) : Bool :=
  match c.last_contacted with
  | none => false
  | some t => decide (t ≤ now - days_threshold) && !c.needs_followup && !c.replied

/-- `EmailEngine.get_followup_candidates`: select the candidates, then mutate
each selected contact by setting `needs_followup`; the returned list aliases
the mutated session objects, so its elements carry the flag already set. -/
def get_followup_candidates (now days_threshold : Int) (st : EngineState) :
    List Contact × EngineState :=
  ((st.contacts.filter (isFollowupCandidate now days_threshold)).map
      (fun c => { c with needs_followup := true }),
   { st with contacts := st.contacts.map (fun c =>
       if isFollowupCandidate now days_threshold c then { c with needs_followup := true }
       else c) })

/-! ## `EmailEngine.mark_as_replied` -/

/-- Replace the first element satisfying `p` using `f` (the session holds one
object per primary key, so the primary-key get touches one row). -/
def updateFirst (p : Contact → Bool) (f : Contact → Contact) : List Contact → List Contact
  | [] => []
  | c :: rest => if p c then f c :: rest else c :: updateFirst p f rest

/-- The contact-table mutation of `mark_as_replied`: set `replied` and clear
`needs_followup` on the row with the given primary key. -/
def repliedUpdate (contact_id : Nat) (l : List Contact) : List Contact :=
  updateFirst (fun c => c.id == contact_id)
    (fun c => { c with replied := true, needs_followup := false }) l

/-- `EmailEngine.mark_as_replied`.  The flag mutations happen on the session
object first; with a non-empty notes argument the source then reads
`contact.notes`, an attribute the `Contact` model does not define, so the call
raises `AttributeError` (modelled as `.error`) before reaching the commit,
leaving the flag mutations pending on the session object. -/
def mark_as_replied (notes : String) (contact_id : Nat) (st : EngineState) :
    Except String Bool × EngineState :=
  match st.contacts.find? (fun c => c.id == contact_id) with
  | none => (.ok false, st)
  | some _ =>
    ((if notes == "" then .ok true
      else .error "AttributeError: Contact object has no attribute notes"),
     { st with contacts := repliedUpdate contact_id st.contacts })

/-! ## `EmailEngine.send_bulk_emails` -/

/-- Result of a bulk send: either a normal return pair, or an uncaught
exception escaping the method. -/
inductive BulkResult where
  | ret (ok : Bool) (msg : String)
  | attrError
deriving DecidableEq, Repr

/-- The aggregate summary string of a bulk send. -/
def bulkSummary (sent failed : Nat) (errs : List String) : String :=
  let base := "Sent: " ++ toString sent ++ ", Failed: " ++ toString failed
  if errs.isEmpty then base
  else base ++ "\n\nErrors:\n" ++ String.intercalate "\n" (errs.take 5)

/-- The per-contact loop of `send_bulk_emails`: look the contact up, send with
the default retry budget of 3 and no personalization, accumulate counters and
error strings in order. -/
def bulkLoop (oracles : Nat → Nat → Option String) (t : EmailTemplate) (job : Option Job)
    (your_name todayStr : String) (now today : Int) :
    List Nat → Nat → Nat × Nat × List String → EngineState →
      (Nat × Nat × List String) × EngineState
  | [], _, acc, st => (acc, st)
  | cid :: rest, idx, (s, f, errs), st =>
    match st.contacts.find? (fun c => c.id == cid) with
    | none =>
      bulkLoop oracles t job your_name todayStr now today rest (idx + 1)
        (s, f + 1, errs ++ ["Contact " ++ toString cid ++ " not found"]) st
    | some c =>
      let r := send_email_internal
        { oracle := oracles idx, contact := c, template := t, job := job,
          your_name := your_name, todayStr := todayStr, pctx := [],
          now := now, today := today } 3 st
      if r.1.success then
        bulkLoop oracles t job your_name todayStr now today rest (idx + 1)
          (s + 1, f, errs) r.2
      else
        bulkLoop oracles t job your_name todayStr now today rest (idx + 1)
          (s, f + 1, errs ++ [c.email ++ ": " ++ r.1.message]) r.2

/-- `EmailEngine.send_bulk_emails`: template lookup, then the dereference
`self.current_account.email_address` as the argument of `connect_smtp` - on a
state with no current account this raises `AttributeError` before any
connection is attempted; otherwise connect (outcome supplied by `connectOk`),
run the loop, disconnect, and return the summary. -/
def send_bulk_emails (oracles : Nat → Nat → Option String) (connectOk : Bool)
    (contact_ids : List Nat) (template_id : Nat) (job : Option Job)
    (your_name todayStr : String) (now today : Int) (st : EngineState) :
    BulkResult × EngineState :=
  match st.templates.find? (fun t => t.id == template_id) with
  | none => (.ret false "Template not found", st)
  | some t =>
    match st.current_account with
    | none => (.attrError, st)
    | some acct =>
      if !connectOk then (.ret false "Failed to establish SMTP connection.", st)
      else
        let st0 := { st with smtp_connected := true, current_account := some acct }
        let r := bulkLoop oracles t job your_name todayStr now today contact_ids 0
          (0, 0, []) st0
        let st2 := { r.2 with smtp_connected := false, current_account := none }
        (.ret true (bulkSummary r.1.1 r.1.2.1 r.1.2.2), st2)

/-! ## Invariant predicate and concrete fixtures -/

/-- The Contact invariant of the spec: a replied contact is never flagged for
follow-up. -/
abbrev ContactInv (c : Contact) : Prop := c.replied = true → c.needs_followup = false

/-- A plain contact record used for concrete instantiations. -/
def wContact : Contact :=
  { id := 1, name := some "Ann Lee", email := "ann@acme.io",
    company_name := some "Acme", contact_type := some "HR", phone := none,
    linkedin_url := none, last_contacted := none, needs_followup := false,
    followup_date := none, replied := false, reply_date := none }

/-- A follow-up template with a three-day delay. -/
def wTemplate : EmailTemplate :=
  { id := 2, name := "intro", subject := "Hi \x7bfirst_name\x7d",
    body := "B \x7bcompany\x7d", is_followup := true, days_after_previous := 3 }

/-- A follow-up template whose delay is zero days. -/
def wTemplateZero : EmailTemplate := { wTemplate with days_after_previous := 0 }

/-- A connected engine state holding the fixture contact and template. -/
def wStateConn : EngineState :=
  { contacts := [wContact], templates := [wTemplate], logs := [],
    smtp_connected := true, current_account := some { email_address := "me@x.y" } }

/-- Send inputs whose every transmission attempt succeeds. -/
def wCtxOk : SendCtx :=
  { oracle := fun _ => none, contact := wContact, template := wTemplate,
    job := none, your_name := "Bob", todayStr := "July 01, 2025", pctx := [],
    now := 100, today := 50 }

/-- Send inputs whose every transmission attempt fails. -/
def wCtxFail : SendCtx := { wCtxOk with oracle := fun _ => some "boom" }

/-- Send inputs using the zero-day follow-up template. -/
def wCtxZero : SendCtx := { wCtxOk with template := wTemplateZero }

/-- A contact last contacted long ago (candidate at the first query). -/
def wContactA : Contact := { wContact with id := 1, last_contacted := some 0 }

/-- A contact that crosses the threshold only at the second query. -/
def wContactB : Contact := { wContact with id := 2, last_contacted := some 95 }

/-- A two-contact state for the double-query scenario. -/
def wStateTwo : EngineState :=
  { contacts := [wContactA, wContactB], templates := [], logs := [],
    smtp_connected := false, current_account := none }

/-- A contact whose name is a non-empty whitespace-only string. -/
def wContactWS : Contact := { wContact with name := some " " }

/-- The template of the re-expansion scenario: its subject is exactly the
contact-name placeholder. -/
def c8Template : EmailTemplate :=
  { id := 9, name := "c8", subject := "\x7bname\x7d", body := "",
    is_followup := false, days_after_previous := 7 }

/-- A contact whose display name is literally the sender-name placeholder
token. -/
def c8Contact : Contact := { wContact with name := some "\x7byour_name\x7d" }

/-- A contact whose display name is literally its own placeholder token. -/
def c8ContactSelf : Contact := { wContact with name := some "\x7bname\x7d" }

/-! ## Helper lemmas -/

theorem isPrefixOf_self (l : List Char) : l.isPrefixOf l = true := by
  induction l with
  | nil => rfl
  | cons c rest ih => simp [List.isPrefixOf, ih]

theorem replaceAllFuel_nil (pat repl : List Char) (fuel : Nat) :
    replaceAllFuel pat repl fuel [] = [] := by
  cases fuel <;> rfl

theorem replaceAllFuel_not_contains (pat repl : List Char) (s : List Char)
    (fuel : Nat) (h : containsSub pat s = false) :
    replaceAllFuel pat repl fuel s = s := by
  induction s generalizing fuel with
  | nil => exact replaceAllFuel_nil pat repl fuel
  | cons c rest ih =>
    cases fuel with
    | zero => rfl
    | succ f =>
      have h1 : pat.isPrefixOf (c :: rest) = false ∧ containsSub pat rest = false := by
        simpa [containsSub, Bool.or_eq_false_iff] using h
      simp [replaceAllFuel, h1.1, ih f h1.2]

theorem pyReplace_not_contains (s pat repl : String)
    (h : containsSub pat.data s.data = false) : pyReplace s pat repl = s := by
  show String.mk (replaceAllFuel pat.data repl.data s.data.length s.data) = s
  rw [replaceAllFuel_not_contains pat.data repl.data s.data s.data.length h]

theorem pyReplace_self (s repl : String) (h : s.data ≠ []) :
    pyReplace s s repl = repl := by
  obtain ⟨c, rest, hcr⟩ : ∃ c rest, s.data = c :: rest := by
    cases hd : s.data with
    | nil => exact absurd hd h
    | cons c rest => exact ⟨c, rest, rfl⟩
  show String.mk (replaceAllFuel s.data repl.data s.data.length s.data) = repl
  rw [hcr]
  simp [replaceAllFuel, isPrefixOf_self, List.drop_length, replaceAllFuel_nil]

theorem pyReplace_empty (pat repl : String) : pyReplace "" pat repl = "" := rfl

theorem pyFirstToken_all_space (l : List Char) (h : l.all pyIsSpace = true) :
    pyFirstToken l = none := by
  induction l with
  | nil => rfl
  | cons c rest ih =>
    simp only [List.all_cons, Bool.and_eq_true] at h
    simp only [pyFirstToken, h.1, if_true]
    exact ih h.2

theorem find?_updateFirst (p : Contact → Bool) (f : Contact → Contact)
    (hpf : ∀ x, p x = true → p (f x) = true) (l : List Contact) (a : Contact)
    (h : l.find? p = some a) :
    (updateFirst p f l).find? p = some (f a) := by
  induction l with
  | nil => simp [List.find?] at h
  | cons c rest ih =>
    by_cases hp : p c = true
    · simp only [List.find?, hp] at h
      obtain rfl : c = a := by simpa using h
      simp [updateFirst, hp, List.find?, hpf c hp]
    · have hp' : p c = false := by simpa using hp
      simp only [List.find?, hp'] at h
      simp [updateFirst, hp', List.find?, ih h]

theorem mem_updateFirst (p : Contact → Bool) (f : Contact → Contact)
    (l : List Contact) (c : Contact) (h : c ∈ updateFirst p f l) :
    c ∈ l ∨ ∃ a, a ∈ l ∧ c = f a := by
  induction l with
  | nil => simp [updateFirst] at h
  | cons b rest ih =>
    by_cases hp : p b = true
    · simp [updateFirst, hp] at h
      rcases h with h | h
      · exact Or.inr ⟨b, List.mem_cons_self b rest, h⟩
      · exact Or.inl (List.mem_cons_of_mem b h)
    · have hp' : p b = false := by simpa using hp
      simp [updateFirst, hp'] at h
      rcases h with h | h
      · exact Or.inl (by simp [h])
      · rcases ih h with h2 | ⟨a, ha, hc⟩
        · exact Or.inl (List.mem_cons_of_mem b h2)
        · exact Or.inr ⟨a, List.mem_cons_of_mem b ha, hc⟩

theorem sendAttempts_ok (p : SendCtx) (max_retries : Nat) (st : EngineState)
    (k : Nat) :
    ∀ (r i : Nat) (le : Option String) (sb : String × String),
      k < r → (∀ j, j < k → isErr (attemptStep st p (i + j)) = true) →
      attemptStep st p (i + k) = .ok sb →
      sendAttempts p max_retries st r i le =
        ({ success := true, message := "Email sent successfully!", event := mkEvent p },
         commitSent st p sb.1 sb.2) := by
  induction k with
  | zero =>
    intro r i le sb hk _ hok
    obtain ⟨r', rfl⟩ : ∃ r', r = r' + 1 := ⟨r - 1, by omega⟩
    rw [Nat.add_zero] at hok
    simp [sendAttempts, hok]
  | succ k ih =>
    intro r i le sb hk hfail hok
    obtain ⟨r', rfl⟩ : ∃ r', r = r' + 1 := ⟨r - 1, by omega⟩
    have h0 : isErr (attemptStep st p i) = true := by
      have := hfail 0 (Nat.succ_pos k)
      rwa [Nat.add_zero] at this
    obtain ⟨e, he⟩ : ∃ e, attemptStep st p i = .error e := by
      cases hA : attemptStep st p i with
      | error e => exact ⟨e, rfl⟩
      | ok _ => rw [hA] at h0; simp [isErr] at h0
    have hr : (r' == 0) = false := by
      have : r' ≠ 0 := by omega
      simpa using this
    have hstep : sendAttempts p max_retries st (r' + 1) i le =
        sendAttempts p max_retries st r' (i + 1) (some e) := by
      simp [sendAttempts, he, hr]
    rw [hstep]
    refine ih r' (i + 1) (some e) sb (by omega) ?_ ?_
    · intro j hj
      have := hfail (j + 1) (by omega)
      rwa [show i + (j + 1) = i + 1 + j by omega] at this
    · rwa [show i + (k + 1) = i + 1 + k by omega] at hok

theorem sendAttempts_allfail (p : SendCtx) (max_retries : Nat) (st : EngineState)
    (r : Nat) :
    ∀ (i : Nat) (le : Option String),
      0 < r → (∀ j, j < r → isErr (attemptStep st p (i + j)) = true) →
      ∃ e, attemptStep st p (i + (r - 1)) = .error e ∧
        sendAttempts p max_retries st r i le =
          ({ success := false, message := failMsg max_retries e, event := none },
           { st with logs := st.logs ++ [mkFailedLog p max_retries e] }) := by
  induction r with
  | zero => intro i le h; omega
  | succ r ih =>
    intro i le _ hfail
    have h0 : isErr (attemptStep st p i) = true := by
      have := hfail 0 (Nat.succ_pos r)
      rwa [Nat.add_zero] at this
    obtain ⟨e0, he0⟩ : ∃ e0, attemptStep st p i = .error e0 := by
      cases hA : attemptStep st p i with
      | error e => exact ⟨e, rfl⟩
      | ok _ => rw [hA] at h0; simp [isErr] at h0
    cases Nat.eq_zero_or_pos r with
    | inl hz =>
      subst hz
      refine ⟨e0, by simpa using he0, ?_⟩
      simp [sendAttempts, he0]
    | inr hpos =>
      have hr : (r == 0) = false := by
        have : r ≠ 0 := by omega
        simpa using this
      have hstep : sendAttempts p max_retries st (r + 1) i le =
          sendAttempts p max_retries st r (i + 1) (some e0) := by
        simp [sendAttempts, he0, hr]
      obtain ⟨e, he, hres⟩ := ih (i + 1) (some e0) hpos (fun j hj => by
        have := hfail (j + 1) (by omega)
        rwa [show i + (j + 1) = i + 1 + j by omega] at this)
      refine ⟨e, ?_, ?_⟩
      · rwa [show i + 1 + (r - 1) = i + (r + 1 - 1) by omega] at he
      · rw [hstep]; exact hres

theorem sendAttempts_contacts (p : SendCtx) (max_retries : Nat) (st : EngineState)
    (r : Nat) :
    ∀ (i : Nat) (le : Option String),
      (sendAttempts p max_retries st r i le).2.contacts = st.contacts ∨
      ∃ sb : String × String,
        (sendAttempts p max_retries st r i le).2 = commitSent st p sb.1 sb.2 := by
  induction r with
  | zero => intro i le; exact Or.inl rfl
  | succ r ih =>
    intro i le
    cases hA : attemptStep st p i with
    | ok sb => exact Or.inr ⟨sb, by simp [sendAttempts, hA]⟩
    | error e =>
      by_cases hz : r = 0
      · subst hz
        exact Or.inl (by simp [sendAttempts, hA])
      · have hr : (r == 0) = false := by simpa using hz
        have hstep : sendAttempts p max_retries st (r + 1) i le =
            sendAttempts p max_retries st r (i + 1) (some e) := by
          simp [sendAttempts, hA, hr]
        rw [hstep]
        exact ih (i + 1) (some e)

theorem applySendUpdate_replied (c : Contact) (t : EmailTemplate) (now today : Int) :
    (applySendUpdate c t now today).replied = false := by
  unfold applySendUpdate
  split <;> rfl

theorem applySendUpdate_last_contacted (c : Contact) (t : EmailTemplate)
    (now today : Int) :
    (applySendUpdate c t now today).last_contacted = some now := by
  unfold applySendUpdate
  split <;> rfl

theorem isFollowupCandidate_replied (now d : Int) (c : Contact)
    (h : isFollowupCandidate now d c = true) : c.replied = false := by
  unfold isFollowupCandidate at h
  cases hl : c.last_contacted with
  | none => rw [hl] at h; simp at h
  | some t =>
    rw [hl] at h
    simp only [Bool.and_eq_true, Bool.not_eq_true'] at h
    exact h.2

theorem isFollowupCandidate_not_flagged (now d : Int) (c : Contact)
    (h : isFollowupCandidate now d c = true) : c.needs_followup = false := by
  unfold isFollowupCandidate at h
  cases hl : c.last_contacted with
  | none => rw [hl] at h; simp at h
  | some t =>
    rw [hl] at h
    simp only [Bool.and_eq_true, Bool.not_eq_true'] at h
    exact h.1.2

theorem updateFirst_idem (p : Contact → Bool) (f : Contact → Contact)
    (hidem : ∀ c, f (f c) = f c) (hp : ∀ c, p (f c) = p c) (l : List Contact) :
    updateFirst p f (updateFirst p f l) = updateFirst p f l := by
  induction l with
  | nil => rfl
  | cons c rest ih =>
    by_cases hpc : p c = true
    · simp [updateFirst, hpc, hp c, hidem c]
    · have hpc' : p c = false := by simpa using hpc
      simp [updateFirst, hpc', ih]

/-! ## Claim theorems -/

/-- C3: when every one of the `max_retries` attempts of a send fails, exactly
one EmailLog row is appended, with status failed and carrying the last
attempt's error message; the contact table is unchanged; and the returned
failure message states the number of attempts made. -/
theorem c3_exhausted_retries_one_failed_log (p : SendCtx) (st : EngineState)
    (max_retries : Nat) (hpos : 0 < max_retries)
    (hfail : ∀ j, j < max_retries → isErr (attemptStep st p j) = true) :
    ∃ e, attemptStep st p (max_retries - 1) = .error e ∧
      send_email_internal p max_retries st =
        ({ success := false, message := failMsg max_retries e, event := none },
         { st with logs := st.logs ++ [mkFailedLog p max_retries e] }) ∧
      (mkFailedLog p max_retries e).status = "failed" ∧
      (mkFailedLog p max_retries e).error_message = some (failMsg max_retries e) ∧
      ({ st with logs := st.logs ++ [mkFailedLog p max_retries e] }).contacts =
        st.contacts ∧
      failMsg max_retries e =
        "Failed after " ++ toString max_retries ++ " attempts: " ++ e := by
  obtain ⟨e, he, hres⟩ := sendAttempts_allfail p max_retries st max_retries 0 none hpos
    (fun j hj => by simpa using hfail j hj)
  refine ⟨e, by simpa using he, ?_, rfl, rfl, rfl, rfl⟩
  simpa [send_email_internal] using hres

/-- Witness for C3: a concrete send whose three attempts all fail with the
transport error boom. -/
theorem c3_witness :
    ∃ e, attemptStep wStateConn wCtxFail (3 - 1) = .error e ∧
      send_email_internal wCtxFail 3 wStateConn =
        ({ success := false, message := failMsg 3 e, event := none },
         { wStateConn with logs := wStateConn.logs ++ [mkFailedLog wCtxFail 3 e] }) ∧
      (mkFailedLog wCtxFail 3 e).status = "failed" ∧
      (mkFailedLog wCtxFail 3 e).error_message = some (failMsg 3 e) ∧
      ({ wStateConn with
          logs := wStateConn.logs ++ [mkFailedLog wCtxFail 3 e] }).contacts =
        wStateConn.contacts ∧
      failMsg 3 e = "Failed after " ++ toString 3 ++ " attempts: " ++ e :=
  c3_exhausted_retries_one_failed_log wCtxFail wStateConn 3 (by decide) (by decide)

/-- C4: a send that succeeds on some attempt (after any number of failed
attempts within the same call) appends exactly one EmailLog row, with status
sent; the failed intermediate attempts append nothing; and the stored
contact's last_contacted is set to the send timestamp. -/
theorem c4_successful_send_one_sent_log (p : SendCtx) (st : EngineState)
    (max_retries k : Nat) (subj bod : String)
    (hk : k < max_retries)
    (hfail : ∀ j, j < k → isErr (attemptStep st p j) = true)
    (hok : attemptStep st p k = .ok (subj, bod)) :
    send_email_internal p max_retries st =
      ({ success := true, message := "Email sent successfully!", event := mkEvent p },
       commitSent st p subj bod) ∧
    (commitSent st p subj bod).logs = st.logs ++ [mkSentLog p subj bod] ∧
    (mkSentLog p subj bod).status = "sent" ∧
    (commitSent st p subj bod).contacts = st.contacts.map (fun c =>
      if c.id == p.contact.id then applySendUpdate c p.template p.now p.today
      else c) ∧
    (∀ c : Contact,
      (applySendUpdate c p.template p.now p.today).last_contacted = some p.now) := by
  refine ⟨?_, rfl, rfl, rfl, fun c => applySendUpdate_last_contacted c _ _ _⟩
  have := sendAttempts_ok p max_retries st k max_retries 0 none (subj, bod) hk
    (fun j hj => by simpa using hfail j hj) (by simpa using hok)
  simpa [send_email_internal] using this

/-- Witness for C4: a concrete send succeeding at the first attempt. -/
theorem c4_witness :
    send_email_internal wCtxOk 3 wStateConn =
      ({ success := true, message := "Email sent successfully!",
         event := mkEvent wCtxOk },
       commitSent wStateConn wCtxOk "Hi Ann" "B Acme") ∧
    (commitSent wStateConn wCtxOk "Hi Ann" "B Acme").logs =
      wStateConn.logs ++ [mkSentLog wCtxOk "Hi Ann" "B Acme"] ∧
    (mkSentLog wCtxOk "Hi Ann" "B Acme").status = "sent" ∧
    (commitSent wStateConn wCtxOk "Hi Ann" "B Acme").contacts =
      wStateConn.contacts.map (fun c =>
        if c.id == wCtxOk.contact.id then
          applySendUpdate c wCtxOk.template wCtxOk.now wCtxOk.today
        else c) ∧
    (∀ c : Contact,
      (applySendUpdate c wCtxOk.template wCtxOk.now wCtxOk.today).last_contacted =
        some wCtxOk.now) :=
  c4_successful_send_one_sent_log wCtxOk wStateConn 3 0 "Hi Ann" "B Acme"
    (by decide) (by decide) (by decide)

/-- C2 counterexample: with a follow-up template whose days_after_previous is
zero, a successful send leaves needs_followup false and followup_date unset,
against the claim's statement that the postconditions hold also at zero. -/
theorem c2_counterexample :
    (send_email_internal wCtxZero 3 wStateConn).1.success = true ∧
    wCtxZero.template.is_followup = true ∧
    wCtxZero.template.days_after_previous = 0 ∧
    ((send_email_internal wCtxZero 3 wStateConn).2.contacts.head?.map
      (fun c => (c.needs_followup, c.followup_date))) =
      some (false, (none : Option Int)) := by decide

/-- C2 (amended): on a successful send with a follow-up template whose
days_after_previous is non-zero, the stored contact afterwards has
needs_followup true, followup_date today plus the delay, replied false and
last_contacted the send time; when the delay is zero the follow-up branch is
skipped (see the counterexample). -/
theorem c2_followup_template_postconditions (p : SendCtx) (st : EngineState)
    (max_retries k : Nat) (subj bod : String)
    (hF : p.template.is_followup = true)
    (hD : p.template.days_after_previous ≠ 0)
    (hk : k < max_retries)
    (hfail : ∀ j, j < k → isErr (attemptStep st p j) = true)
    (hok : attemptStep st p k = .ok (subj, bod)) :
    send_email_internal p max_retries st =
      ({ success := true, message := "Email sent successfully!", event := mkEvent p },
       commitSent st p subj bod) ∧
    (commitSent st p subj bod).contacts = st.contacts.map (fun c =>
      if c.id == p.contact.id then applySendUpdate c p.template p.now p.today
      else c) ∧
    (∀ c : Contact,
      (applySendUpdate c p.template p.now p.today).needs_followup = true ∧
      (applySendUpdate c p.template p.now p.today).followup_date =
        some (p.today + (p.template.days_after_previous : Int)) ∧
      (applySendUpdate c p.template p.now p.today).replied = false ∧
      (applySendUpdate c p.template p.now p.today).last_contacted = some p.now) := by
  have hg : (p.template.is_followup && (p.template.days_after_previous != 0)) = true := by
    simp only [hF, Bool.true_and, bne_iff_ne, ne_eq]
    exact hD
  refine ⟨?_, rfl, fun c => ?_⟩
  · have := sendAttempts_ok p max_retries st k max_retries 0 none (subj, bod) hk
      (fun j hj => by simpa using hfail j hj) (by simpa using hok)
    simpa [send_email_internal] using this
  · simp [applySendUpdate, hg]

/-- Witness for C2: the fixture send with a three-day follow-up template,
succeeding at the first attempt. -/
theorem c2_witness :
    send_email_internal wCtxOk 3 wStateConn =
      ({ success := true, message := "Email sent successfully!",
         event := mkEvent wCtxOk },
       commitSent wStateConn wCtxOk "Hi Ann" "B Acme") ∧
    (commitSent wStateConn wCtxOk "Hi Ann" "B Acme").contacts =
      wStateConn.contacts.map (fun c =>
        if c.id == wCtxOk.contact.id then
          applySendUpdate c wCtxOk.template wCtxOk.now wCtxOk.today
        else c) ∧
    (∀ c : Contact,
      (applySendUpdate c wCtxOk.template wCtxOk.now wCtxOk.today).needs_followup =
        true ∧
      (applySendUpdate c wCtxOk.template wCtxOk.now wCtxOk.today).followup_date =
        some (wCtxOk.today + (wCtxOk.template.days_after_previous : Int)) ∧
      (applySendUpdate c wCtxOk.template wCtxOk.now wCtxOk.today).replied = false ∧
      (applySendUpdate c wCtxOk.template wCtxOk.now wCtxOk.today).last_contacted =
        some wCtxOk.now) :=
  c2_followup_template_postconditions wCtxOk wStateConn 3 0 "Hi Ann" "B Acme"
    (by decide) (by decide) (by decide) (by decide) (by decide)

/-- C5: the invariant that a replied contact is not flagged for follow-up is
preserved by the send path, by the candidates promotion, and by
mark-as-replied, on every state where it holds beforehand. -/
theorem c5_replied_never_flagged (st : EngineState)
    (hinv : ∀ c ∈ st.contacts, ContactInv c) :
    (∀ (p : SendCtx) (max_retries : Nat),
       ∀ c ∈ (send_email_internal p max_retries st).2.contacts, ContactInv c) ∧
    (∀ now d : Int,
       ∀ c ∈ (get_followup_candidates now d st).2.contacts, ContactInv c) ∧
    (∀ (notes : String) (cid : Nat),
       ∀ c ∈ (mark_as_replied notes cid st).2.contacts, ContactInv c) := by
  refine ⟨?_, ?_, ?_⟩
  · intro p mr c hc
    have hse : send_email_internal p mr st = sendAttempts p mr st mr 0 none := rfl
    rw [hse] at hc
    rcases sendAttempts_contacts p mr st mr 0 none with h | ⟨sb, h⟩
    · rw [h] at hc; exact hinv c hc
    · rw [h] at hc
      have hc' : c ∈ st.contacts.map (fun x =>
          if x.id == p.contact.id then applySendUpdate x p.template p.now p.today
          else x) := hc
      obtain ⟨a, haMem, hfa⟩ := List.mem_map.mp hc'
      by_cases hid : (a.id == p.contact.id) = true
      · simp only [hid, if_true] at hfa
        intro hrep
        rw [← hfa, applySendUpdate_replied] at hrep
        exact absurd hrep (by decide)
      · have hid' : (a.id == p.contact.id) = false := by simpa using hid
        simp only [hid', Bool.false_eq_true, if_false] at hfa
        rw [← hfa]
        exact hinv a haMem
  · intro now d c hc
    have hc' : c ∈ st.contacts.map (fun x =>
        if isFollowupCandidate now d x then { x with needs_followup := true }
        else x) := hc
    obtain ⟨a, haMem, hfa⟩ := List.mem_map.mp hc'
    by_cases hcand : isFollowupCandidate now d a = true
    · simp only [hcand, if_true] at hfa
      intro hrep
      rw [← hfa] at hrep
      have hrep' : a.replied = true := hrep
      rw [isFollowupCandidate_replied now d a hcand] at hrep'
      exact absurd hrep' (by decide)
    · have hcand' : isFollowupCandidate now d a = false := by simpa using hcand
      simp only [hcand', Bool.false_eq_true, if_false] at hfa
      rw [← hfa]
      exact hinv a haMem
  · intro notes cid c hc
    cases hf : st.contacts.find? (fun x => x.id == cid) with
    | none =>
      have h2 : (mark_as_replied notes cid st).2 = st := by
        simp [mark_as_replied, hf]
      rw [h2] at hc
      exact hinv c hc
    | some a =>
      have h2 : (mark_as_replied notes cid st).2.contacts =
          updateFirst (fun x => x.id == cid)
            (fun x => { x with replied := true, needs_followup := false })
            st.contacts := by
        simp [mark_as_replied, hf, repliedUpdate]
      rw [h2] at hc
      rcases mem_updateFirst _ _ _ _ hc with h | ⟨b, _, hcb⟩
      · exact hinv c h
      · intro _
        rw [hcb]

/-- Witness for C5: the three operations applied to the fixture state, whose
single contact satisfies the invariant. -/
theorem c5_witness :
    (∀ c ∈ (send_email_internal wCtxOk 3 wStateConn).2.contacts, ContactInv c) ∧
    (∀ c ∈ (get_followup_candidates 100 7 wStateConn).2.contacts, ContactInv c) ∧
    (∀ c ∈ (mark_as_replied "note" 1 wStateConn).2.contacts, ContactInv c) :=
  ⟨(c5_replied_never_flagged wStateConn (by decide)).1 wCtxOk 3,
   (c5_replied_never_flagged wStateConn (by decide)).2.1 100 7,
   (c5_replied_never_flagged wStateConn (by decide)).2.2 "note" 1⟩

/-- C1: a contact returned by a candidates query is never returned by an
immediately following second query with the same threshold and no intervening
send or mark-as-replied, because the first query set needs_followup on every
contact it returned; contact ids are unique (primary keys). -/
theorem c1_candidates_not_returned_twice (st : EngineState) (now1 now2 d : Int)
    (hnodup : (st.contacts.map Contact.id).Nodup)
    (x y : Contact)
    (h1 : x ∈ (get_followup_candidates now1 d st).1)
    (h2 : y ∈ (get_followup_candidates now2 d (get_followup_candidates now1 d st).2).1) :
    x.id ≠ y.id := by
  obtain ⟨a, ha, hxa⟩ := List.mem_map.mp h1
  obtain ⟨haMem, hp1a⟩ := List.mem_filter.mp ha
  obtain ⟨b', hb', hyb⟩ := List.mem_map.mp h2
  obtain ⟨hb'Mem, hp2b⟩ := List.mem_filter.mp hb'
  obtain ⟨b, hbMem, hfb⟩ := List.mem_map.mp hb'Mem
  have hnfb' : b'.needs_followup = false :=
    isFollowupCandidate_not_flagged now2 d b' hp2b
  have hp1b : isFollowupCandidate now1 d b = false := by
    cases hxx : isFollowupCandidate now1 d b with
    | false => rfl
    | true =>
      rw [← hfb] at hnfb'
      simp only [hxx, if_true] at hnfb'
      exact absurd hnfb' (by decide)
  have hbb' : b' = b := by
    rw [← hfb]
    simp [hp1b]
  intro heq
  have hx_id : x.id = a.id := by rw [← hxa]
  have hy_id : y.id = b.id := by rw [← hyb, hbb']
  have hab : Contact.id a = Contact.id b := by
    rw [← hx_id, ← hy_id]; exact heq
  have hEq : a = b := List.inj_on_of_nodup_map hnodup haMem hbMem hab
  rw [hEq] at hp1a
  rw [hp1a] at hp1b
  exact absurd hp1b (by decide)

/-- Witness for C1: contact A is returned by the first query at time 100,
contact B only by the second query at time 103; their ids differ. -/
theorem c1_witness :
    ({ wContactA with needs_followup := true } : Contact).id ≠
      ({ wContactB with needs_followup := true } : Contact).id :=
  c1_candidates_not_returned_twice wStateTwo 100 103 7 (by decide)
    { wContactA with needs_followup := true }
    { wContactB with needs_followup := true }
    (by decide) (by decide)

/-- C6 counterexample: with a non-empty notes argument, mark_as_replied does
not complete at all - the read of contact.notes raises AttributeError because
the Contact model defines no notes column - so the claimed idempotent
note-append behaviour fails at this concrete input. -/
theorem c6_counterexample :
    (mark_as_replied "call went well" 1 wStateConn).1 =
      .error "AttributeError: Contact object has no attribute notes" := by decide

/-- C6 (amended): with an empty notes argument mark_as_replied is idempotent,
a second call returning the same result and state; with a non-empty notes
argument every call raises AttributeError, since the Contact model has no
notes attribute, so no note is ever appended. -/
theorem c6_mark_as_replied_idempotent_empty_notes (st : EngineState) (cid : Nat)
    (a : Contact) (hf : st.contacts.find? (fun c => c.id == cid) = some a) :
    mark_as_replied "" cid ((mark_as_replied "" cid st).2) =
      mark_as_replied "" cid st ∧
    (∀ notes : String, notes ≠ "" →
      (mark_as_replied notes cid st).1 =
        .error "AttributeError: Contact object has no attribute notes") := by
  constructor
  · have h2 : (repliedUpdate cid st.contacts).find? (fun c => c.id == cid) =
        some { a with replied := true, needs_followup := false } :=
      find?_updateFirst (fun c => c.id == cid)
        (fun c => { c with replied := true, needs_followup := false })
        (fun x hx => hx) st.contacts a hf
    have hidem : repliedUpdate cid (repliedUpdate cid st.contacts) =
        repliedUpdate cid st.contacts :=
      updateFirst_idem (fun c => c.id == cid)
        (fun c => { c with replied := true, needs_followup := false })
        (fun _ => rfl) (fun _ => rfl) st.contacts
    have hL : mark_as_replied "" cid st =
        (.ok true, { st with contacts := repliedUpdate cid st.contacts }) := by
      simp [mark_as_replied, hf]
    have hR : mark_as_replied "" cid
          ({ st with contacts := repliedUpdate cid st.contacts }) =
        (.ok true, { st with
            contacts := repliedUpdate cid (repliedUpdate cid st.contacts) }) := by
      simp [mark_as_replied, h2]
    calc mark_as_replied "" cid ((mark_as_replied "" cid st).2)
        = mark_as_replied "" cid
            ({ st with contacts := repliedUpdate cid st.contacts }) := by rw [hL]
      _ = (.ok true, { st with
            contacts := repliedUpdate cid (repliedUpdate cid st.contacts) }) := hR
      _ = (.ok true, { st with contacts := repliedUpdate cid st.contacts }) := by
          rw [hidem]
      _ = mark_as_replied "" cid st := hL.symm
  · intro notes hn
    have hb : (notes == "") = false := by simpa using hn
    simp [mark_as_replied, hf, hb]

/-- Witness for C6: the fixture state, whose contact with id 1 exists. -/
theorem c6_witness :
    mark_as_replied "" 1 ((mark_as_replied "" 1 wStateConn).2) =
      mark_as_replied "" 1 wStateConn ∧
    (∀ notes : String, notes ≠ "" →
      (mark_as_replied notes 1 wStateConn).1 =
        .error "AttributeError: Contact object has no attribute notes") :=
  c6_mark_as_replied_idempotent_empty_notes wStateConn 1 wContact (by decide)

/-- C7 counterexample: mark_as_replied on the fixture contact sets the two
flags but leaves reply_date untouched (still none), against the claim that it
is set to the current time. -/
theorem c7_counterexample :
    ((mark_as_replied "" 1 wStateConn).2.contacts.head?.map
      (fun c => (c.replied, c.needs_followup, c.reply_date))) =
      some (true, false, (none : Option Int)) := by decide

/-- C7 (amended): for every existing contact, mark_as_replied sets replied
true and needs_followup false and returns True, but does not modify
reply_date. -/
theorem c7_mark_as_replied_sets_flags_only (st : EngineState) (cid : Nat)
    (a : Contact) (hf : st.contacts.find? (fun c => c.id == cid) = some a) :
    (mark_as_replied "" cid st).1 = .ok true ∧
    (mark_as_replied "" cid st).2.contacts.find? (fun c => c.id == cid) =
      some { a with replied := true, needs_followup := false } ∧
    ({ a with replied := true, needs_followup := false } : Contact).reply_date =
      a.reply_date := by
  refine ⟨by simp [mark_as_replied, hf], ?_, rfl⟩
  have h2 := find?_updateFirst (fun c => c.id == cid)
    (fun c => { c with replied := true, needs_followup := false })
    (fun x hx => hx) st.contacts a hf
  simpa [mark_as_replied, hf] using h2

/-- Witness for C7: the fixture state and its contact with id 1. -/
theorem c7_witness :
    (mark_as_replied "" 1 wStateConn).1 = .ok true ∧
    (mark_as_replied "" 1 wStateConn).2.contacts.find? (fun c => c.id == 1) =
      some { wContact with replied := true, needs_followup := false } ∧
    ({ wContact with replied := true, needs_followup := false } : Contact).reply_date =
      wContact.reply_date :=
  c7_mark_as_replied_sets_flags_only wStateConn 1 wContact (by decide)

/-- C9: on a freshly constructed engine the current account is none, and a
bulk send whose template lookup succeeds dereferences it before opening a
session, raising an uncaught AttributeError rather than returning a
failure pair. -/
theorem c9_bulk_send_without_connect_raises (contacts : List Contact)
    (templates : List EmailTemplate) (oracles : Nat → Nat → Option String)
    (connectOk : Bool) (ids : List Nat) (tid : Nat) (job : Option Job)
    (your_name todayStr : String) (now today : Int) (t : EmailTemplate)
    (ht : templates.find? (fun x => x.id == tid) = some t) :
    (initialEngineState contacts templates).current_account = none ∧
    send_bulk_emails oracles connectOk ids tid job your_name todayStr now today
        (initialEngineState contacts templates) =
      (.attrError, initialEngineState contacts templates) := by
  refine ⟨rfl, ?_⟩
  simp [send_bulk_emails, initialEngineState, ht]

/-- Witness for C9: a concrete fresh engine holding the fixture template. -/
theorem c9_witness :
    (initialEngineState [wContact] [wTemplate]).current_account = none ∧
    send_bulk_emails (fun _ _ => none) true [1] 2 none "Bob" "d" 0 0
        (initialEngineState [wContact] [wTemplate]) =
      (.attrError, initialEngineState [wContact] [wTemplate]) :=
  c9_bulk_send_without_connect_raises [wContact] [wTemplate] (fun _ _ => none)
    true [1] 2 none "Bob" "d" 0 0 wTemplate (by decide)

/-- C10: formatting for a contact whose name is a non-empty whitespace-only
string raises IndexError (the first-name entry), so the whole call fails for
any template, job, sender name and overrides; the fallback value there is
used only when the name is null or empty. -/
theorem c10_first_name_partiality :
    (∀ (t : EmailTemplate) (job : Option Job) (your_name todayStr : String)
       (pctx : List (String × String)) (c : Contact) (s : String),
       c.name = some s → s ≠ "" → s.data.all pyIsSpace = true →
       format_template t c job your_name todayStr pctx = none) ∧
    (∀ c : Contact, c.name = none ∨ c.name = some "" →
       firstNameEntry c.name = some "there") := by
  constructor
  · intro t job your_name todayStr pctx c s hname hne hws
    have htr : optTruthy c.name = true := by
      rw [hname]
      simp only [optTruthy, Bool.not_eq_true', beq_eq_false_iff_ne, ne_eq]
      exact hne
    have hnone : pyFirstToken ((c.name.getD "").data) = none := by
      rw [hname]
      exact pyFirstToken_all_space s.data hws
    simp [format_template, firstNameEntry, htr, hnone]
  · intro c hc
    rcases hc with h | h <;> simp [firstNameEntry, optTruthy, h]

/-- Witness for C10: the contact whose name is a single space, and the
fallback on a null name. -/
theorem c10_witness :
    format_template wTemplate wContactWS none "Bob" "d" [] = none ∧
    firstNameEntry ({ wContact with name := none } : Contact).name =
      some "there" :=
  ⟨c10_first_name_partiality.1 wTemplate none "Bob" "d" [] wContactWS " "
      (by decide) (by decide) (by decide),
   c10_first_name_partiality.2 { wContact with name := none } (Or.inl rfl)⟩

/-- C8 counterexample: with a contact whose name is the literal sender-name
token and the subject being the contact-name token, rendering with sender name
Bob yields Bob, not the verbatim token - the substituted value was re-expanded
by the later sender-name replacement. -/
theorem c8_counterexample :
    format_template c8Template c8Contact none "Bob" "July 01, 2025" [] =
      some ("Bob", "") ∧
    containsSub ("\x7byour_name\x7d".data) ("Bob".data) = false := by decide

/-- C8 (amended): rendering is one literal find-and-replace per placeholder,
applied sequentially in the fixed context insertion order; a substituted value
containing a placeholder token replaced later in that order is re-expanded by
the later pass (for every sender name free of the four tokens processed after
it, a contact named by the sender-name token renders as the sender name),
while a value containing only its own token is left verbatim. -/
theorem c8_sequential_one_level_replacement (y : String)
    (h1 : containsSub ("\x7btoday\x7d".data) y.data = false)
    (h2 : containsSub ("\x7bcontact_role\x7d".data) y.data = false)
    (h3 : containsSub ("\x7bphone\x7d".data) y.data = false)
    (h4 : containsSub ("\x7blinkedin\x7d".data) y.data = false) :
    format_template c8Template c8Contact none y "July 01, 2025" [] = some (y, "") ∧
    format_template c8Template c8ContactSelf none "Bob" "July 01, 2025" [] =
      some ("\x7bname\x7d", "") := by
  constructor
  · have key : format_template c8Template c8Contact none y "July 01, 2025" [] =
        some (pyReplace (pyReplace (pyReplace (pyReplace
          (pyReplace "\x7byour_name\x7d" "\x7byour_name\x7d" y)
          "\x7btoday\x7d" "July 01, 2025")
          "\x7bcontact_role\x7d" "HR")
          "\x7bphone\x7d" "[phone not available]")
          "\x7blinkedin\x7d" "[LinkedIn not provided]", "") := rfl
    rw [key, pyReplace_self "\x7byour_name\x7d" y (by decide),
      pyReplace_not_contains y "\x7btoday\x7d" "July 01, 2025" h1,
      pyReplace_not_contains y "\x7bcontact_role\x7d" "HR" h2,
      pyReplace_not_contains y "\x7bphone\x7d" "[phone not available]" h3,
      pyReplace_not_contains y "\x7blinkedin\x7d" "[LinkedIn not provided]" h4]
  · decide

/-- Witness for C8: the sender name Bob contains none of the four later
tokens. -/
theorem c8_witness :
    format_template c8Template c8Contact none "Bob" "July 01, 2025" [] =
      some ("Bob", "") ∧
    format_template c8Template c8ContactSelf none "Bob" "July 01, 2025" [] =
      some ("\x7bname\x7d", "") :=
  c8_sequential_one_level_replacement "Bob" (by decide) (by decide) (by decide)
    (by decide)

end JobOutreach
